import Mathlib

/-!
Verification of the core algorithms of the Addison "Sense & Dose" wearable
prototype (`src/app.py`): the wearable stress-index computation, the
GREEN/AMBER/RED alert classifier, the sick-day dose factor, the oral
bolus/follow-up dose split, and the one-compartment (Bateman) PK predictor.

Conventions of the shallow embedding:
* Python floats are modelled as exact rationals (`ℚ`) for the decision logic,
  and as reals (`ℝ`) for the PK predictor, which uses the transcendental
  `math.exp`.
* Optional vitals fields (`None` in Python) are `Option ℚ`.
* The human-readable reason strings built with f-string interpolation are
  modelled as an inductive type with one constructor per distinct message,
  carrying the interpolated numeric value; the textual formatting is
  display-only and irrelevant to the logic.
* Python's `round` (banker's rounding, round-half-to-even) is modelled
  exactly by `pyround` below.
-/

/-- Alert severity level, `"GREEN" | "AMBER" | "RED"` in `src/app.py`. -/
inductive Level where
  | GREEN
  | AMBER
  | RED
deriving DecidableEq

/-- Numeric severity rank: RED > AMBER > GREEN. -/
def Level.rank : Level → ℕ
  | .GREEN => 0
  | .AMBER => 1
  | .RED => 2

/-- The `severe_flags` dict built at `src/app.py:386-391`. -/
structure SevereFlags where
  persistent_diarrhea : Bool
  cannot_tolerate_oral : Bool
  syncope_confusion : Bool
  very_low_bp : Bool
deriving DecidableEq

/-- A wearable vitals record as produced by `read_vitals_json` /
`simulate_vitals` (`src/app.py:59-117`): every field independently optional. -/
structure Vitals where
  hr : Option ℚ
  hrv : Option ℚ
  temp_dev : Option ℚ
  resp : Option ℚ
  spo2 : Option ℚ
  sbp : Option ℚ
deriving DecidableEq

/-- The component descriptions appended to `parts` by `compute_stress_index`
(`src/app.py:141,150,156`), modelled as constructors carrying the
interpolated value. -/
inductive StressPart where
  | hrUp (z : ℚ)
  | tempDelta (tdev : ℚ)
  | hrvLow
deriving DecidableEq

/-- Embeds `compute_stress_index` (`src/app.py:122-159`): a 0–100 score from
heart-rate elevation, wrist-temperature deviation and low HRV, plus the list
of contributing parts. `not vitals` (absent record) yields `(0, [])`. -/
def compute_stress_index (vitals : Option Vitals) (base_hr base_hr_sd base_temp_dev : ℚ) :
    ℚ × List StressPart :=
  match vitals with
  | none => (0, [])
  | some v =>
    let score : ℚ := 0
    let parts : List StressPart := []
    let (score, parts) :=
      match v.hr with
      | some hr =>
        if 0 < base_hr_sd then
          let hr_z := (hr - base_hr) / base_hr_sd
          let hr_z := max 0 hr_z
          (score + min (hr_z * 15) 40, parts ++ [StressPart.hrUp hr_z])
        else (score, parts)
      | none => (score, parts)
    let (score, parts) :=
      match v.temp_dev with
      | some tdev =>
        let sc := max 0 (tdev - base_temp_dev) * 40
        let sc := min sc 40
        (score + sc, parts ++ [StressPart.tempDelta tdev])
      | none => (score, parts)
    let (score, parts) :=
      match v.hrv with
      | some hrv =>
        if hrv < 20 then (score + 10, parts ++ [StressPart.hrvLow]) else (score, parts)
      | none => (score, parts)
    (max 0 (min 100 score), parts)

/-- The reason messages appended by `classify_alert` (`src/app.py:161-192`),
one constructor per message, carrying the interpolated value. -/
inductive Reason where
  | noOralAbsorption
  | severeSymptoms
  | stressIndexHigh (idx : ℚ)
  | tachycardia (hr : ℚ)
  | lowSBP (sbp : ℚ)
  | feverSuspicion (tdev : ℚ)
deriving DecidableEq

/-- One Python statement of the form `if cond: level = "RED"; reasons.append(r)`
acting on the `(level, reasons)` state (`src/app.py:167-170`). -/
def red_step {R : Type} (cond : Bool) (r : R) (s : Level × List R) : Level × List R :=
  if cond then (Level.RED, s.2 ++ [r]) else s

/-- One Python statement of the form `if cond: level = "AMBER"; reasons.append(r)`
acting on the `(level, reasons)` state (`src/app.py:178-190`). -/
def amber_step {R : Type} (cond : Bool) (r : R) (s : Level × List R) : Level × List R :=
  if cond then (Level.AMBER, s.2 ++ [r]) else s

/-- An AMBER rule `if field is not None and trigger(field): ...` on an
optional vitals field, appending a reason built from the field's value
(`src/app.py:181-190`). -/
def amber_opt_step {R : Type} (field : Option ℚ) (trigger : ℚ → Bool) (mk : ℚ → R)
    (s : Level × List R) : Level × List R :=
  match field with
  | some x => amber_step (trigger x) (mk x) s
  | none => s

/-- Embeds `classify_alert` (`src/app.py:161-192`).  The two RED rules run
first; the AMBER block runs only when `level != "RED" and vitals` (modelled
as a match on the optional vitals record followed by the RED test), with the
four AMBER rules applied in source order: stress index ≥ 50, heart rate
≥ 100, systolic BP < 100 and temperature deviation ≥ 0.8 °C. -/
def classify_alert (vomit : Bool) (severe_flags : SevereFlags) (vitals : Option Vitals)
    (stress_index : ℚ) : Level × List Reason :=
  let s2 :=
    red_step (severe_flags.syncope_confusion || severe_flags.very_low_bp) Reason.severeSymptoms
      (red_step (vomit || severe_flags.persistent_diarrhea || severe_flags.cannot_tolerate_oral)
        Reason.noOralAbsorption (Level.GREEN, []))
  match vitals with
  | none => s2
  | some v =>
    if s2.1 = Level.RED then s2
    else
      amber_opt_step v.temp_dev (fun tdev => decide ((0.8 : ℚ) ≤ tdev)) Reason.feverSuspicion
        (amber_opt_step v.sbp (fun sbp => decide (sbp < 100)) Reason.lowSBP
          (amber_opt_step v.hr (fun hr => decide ((100 : ℚ) ≤ hr)) Reason.tachycardia
            (amber_step (decide (50 ≤ stress_index)) (Reason.stressIndexHigh stress_index) s2)))

/-- Embeds `sick_day_factor_from_wearable` (`src/app.py:194-209`): the
heuristic sick-day factor 0 (RED, parenteral), 1 (no change), 2 or 3. -/
def sick_day_factor_from_wearable (vitals : Option Vitals) (stress_index : ℚ) (red : Bool) : ℚ :=
  if red then 0
  else
    match vitals with
    | none => 1
    | some v =>
      if (v.temp_dev.elim false fun t => decide ((1.0 : ℚ) ≤ t)) || decide (70 ≤ stress_index)
          || (v.hr.elim false fun h => decide ((110 : ℚ) ≤ h)) then 3
      else if (v.temp_dev.elim false fun t => decide ((0.6 : ℚ) ≤ t)) || decide (50 ≤ stress_index)
          || (v.hr.elim false fun h => decide ((100 : ℚ) ≤ h)) then 2
      else 1

/-- Python's built-in `round`: round half to even (banker's rounding).
Away from exact halves it agrees with Mathlib's round-half-up `round`. -/
def pyround (x : ℚ) : ℤ :=
  if x - ⌊x⌋ = 1 / 2 then (if 2 ∣ ⌊x⌋ then ⌊x⌋ else ⌊x⌋ + 1) else round x

/-- Embeds `extra_today = (factor - 1.0) * usual_daily` (`src/app.py:421`). -/
def extra_today (factor usual_daily : ℚ) : ℚ := (factor - 1) * usual_daily

/-- Embeds `immediate_bolus = min(20.0, max(5.0, round(0.4 * extra_today / 2.5) * 2.5))`
(`src/app.py:423`). -/
def immediate_bolus (factor usual_daily : ℚ) : ℚ :=
  min 20 (max 5 ((pyround (0.4 * extra_today factor usual_daily / 2.5) : ℚ) * 2.5))

/-- Embeds `follow_up = max(0.0, extra_today - immediate_bolus)` (`src/app.py:424`). -/
def follow_up (factor usual_daily : ℚ) : ℚ :=
  max 0 (extra_today factor usual_daily - immediate_bolus factor usual_daily)

/-- One dose's contribution inside the loop of `pk_predict_conc`
(`src/app.py:306-313`): a dose is a pair `(t_admin, dose)` with times in
hours, `dt = t_eval - t_admin`; future/concurrent doses (`dt <= 0`) and
doses with `abs(ka - ke) < 1e-6` are skipped (`continue`, i.e. contribute 0),
otherwise the Bateman term clipped at 0 from below is added. -/
noncomputable def pk_dose_term (t_eval ka ke Vd : ℝ) (d : ℝ × ℝ) : ℝ :=
  let dt := t_eval - d.1
  if dt ≤ 0 then 0
  else if |ka - ke| < 1 / 1000000 then 0
  else max ((d.2 * ka) / (Vd * (ka - ke)) * (Real.exp (-ke * dt) - Real.exp (-ka * dt))) 0

/-- Embeds `pk_predict_conc` (`src/app.py:303-314`): `ke = log(2)/t_half`
(line 304) and `conc` accumulates each dose's term over the list. -/
noncomputable def pk_predict_conc (last_doses : List (ℝ × ℝ)) (t_eval ka t_half Vd : ℝ) : ℝ :=
  (last_doses.map (pk_dose_term t_eval ka (Real.log 2 / t_half) Vd)).sum

/-- A clock time, as the hour/minute pair Python's `datetime.time` compares
lexicographically. -/
structure TimeHM where
  hour : ℕ
  minute : ℕ
deriving DecidableEq

/-- Lexicographic strict order on clock times, Python's `t1 < t2` on
`datetime.time` values. -/
def timeLt (a b : TimeHM) : Bool :=
  a.hour < b.hour || (a.hour = b.hour && a.minute < b.minute)

/-- The four circadian buckets. -/
inductive Bucket where
  | morning
  | afternoon
  | evening
  | night
deriving DecidableEq

/-- Embeds `time_of_day_bucket` (`src/app.py:47-54`); `t >= time(h,m)` is
`¬ timeLt t ⟨h,m⟩`. -/
def time_of_day_bucket (t : TimeHM) : Bucket :=
  if !timeLt t ⟨5, 0⟩ && timeLt t ⟨12, 0⟩ then .morning
  else if !timeLt t ⟨12, 0⟩ && timeLt t ⟨17, 0⟩ then .afternoon
  else if !timeLt t ⟨17, 0⟩ && timeLt t ⟨23, 0⟩ then .evening
  else .night

/-- A per-bucket biochemical target range (spec section 3, `TargetRange`). -/
structure TargetRange where
  low : ℚ
  high : ℚ
deriving DecidableEq

/-- Reasons of the biochemical-variant classifier (modelled from the spec). -/
inductive ReasonB where
  | noOralAbsorption
  | severeSymptoms
  | fever (temp : ℚ)
  | tachycardia (hr : ℚ)
  | belowTarget (value : ℚ) (low : ℚ)
deriving DecidableEq

/-- Modelled from the spec: the biochemical-variant alert classifier is not in
`src/` (only the wearable variant's `classify_alert` is); spec section 4.4
describes it: RED triggers first (vomiting / persistent diarrhea / cannot
tolerate oral → RED; syncope-confusion / very low BP → RED), then, only when
not already RED, the AMBER rules: fever (temperature ≥ 38.0 °C), tachycardia
(heart rate ≥ 100 bpm), and the biochemical/sensor value strictly below the
current bucket's target-range low, each appending its reason; the final level
is the maximum severity encountered. -/
def classify_alert_biochem (vomit : Bool) (severe_flags : SevereFlags) (temp hr : Option ℚ)
    (value : Option ℚ) (target : TargetRange) : Level × List ReasonB :=
  let s2 :=
    red_step (severe_flags.syncope_confusion || severe_flags.very_low_bp) ReasonB.severeSymptoms
      (red_step (vomit || severe_flags.persistent_diarrhea || severe_flags.cannot_tolerate_oral)
        ReasonB.noOralAbsorption (Level.GREEN, []))
  if s2.1 = Level.RED then s2
  else
    amber_opt_step value (fun x => decide (x < target.low))
      (fun x => ReasonB.belowTarget x target.low)
      (amber_opt_step hr (fun h => decide ((100 : ℚ) ≤ h)) ReasonB.tachycardia
        (amber_opt_step temp (fun tc => decide ((38 : ℚ) ≤ tc)) ReasonB.fever s2))

/-- The reference stress-index formula, written from the spec's words
(section 4.3): a heart-rate term `min(max(0,(hr - baseline_hr)/baseline_hr_sd) * 15, 40)`,
a temperature term `min(max(0, temp_dev - baseline_temp_dev) * 40, 40)`, a
flat 10 points when HRV < 20 ms, each term omitted when its vitals field is
missing, and the total clamped to [0, 100]. -/
def stress_index_spec (vitals : Option Vitals) (base_hr base_hr_sd base_temp_dev : ℚ) : ℚ :=
  match vitals with
  | none => 0
  | some v =>
    let hrTerm :=
      match v.hr with
      | some hr => min (max 0 ((hr - base_hr) / base_hr_sd) * 15) 40
      | none => 0
    let tempTerm :=
      match v.temp_dev with
      | some tdev => min (max 0 (tdev - base_temp_dev) * 40) 40
      | none => 0
    let hrvTerm :=
      match v.hrv with
      | some hrv => if hrv < 20 then (10 : ℚ) else 0
      | none => 0
    max 0 (min 100 (hrTerm + tempTerm + hrvTerm))

/-- The concrete vitals record of spec Scenario 4: heart rate 95 bpm, every
other field absent. -/
def v95 : Vitals := ⟨some 95, none, none, none, none, none⟩

/-- All severe-symptom flags off. -/
def noFlags : SevereFlags := ⟨false, false, false, false⟩

/-- C3: for wearable stress index 72, heart rate 95 and no RED-triggering
flags, `classify_alert` returns AMBER with exactly the stress-index reason
(the index ≥ 50 rule; HR 95 < 100 fires nothing else), and
`sick_day_factor_from_wearable` returns factor 3 (the index ≥ 70 rule). -/
theorem scenario4_amber_factor3 :
    classify_alert false noFlags (some v95) 72 = (Level.AMBER, [Reason.stressIndexHigh 72]) ∧
    sick_day_factor_from_wearable (some v95) 72 false = 3 := by
  constructor
  · decide
  · decide

/-- C10: when the vitals record is absent and no RED-triggering flag is set,
`classify_alert` returns GREEN with no reasons for every stress-index value
(the whole AMBER block, stress-index rule included, is skipped), and
`sick_day_factor_from_wearable` returns factor 1. -/
theorem absent_vitals_green (s : ℚ) :
    classify_alert false noFlags none s = (Level.GREEN, []) ∧
    sick_day_factor_from_wearable none s false = 1 := by
  constructor
  · simp [classify_alert, noFlags, red_step]
  · simp [sick_day_factor_from_wearable]

/-- C2: setting any RED-triggering flag (vomiting, persistent diarrhea,
cannot tolerate oral, syncope/confusion, very low BP) makes `classify_alert`
return RED for every vitals record and stress index; in particular no AMBER
rule can lower the level below RED. -/
theorem red_flag_forces_red (vomit : Bool) (f : SevereFlags) (vitals : Option Vitals) (s : ℚ)
    (h : vomit = true ∨ f.persistent_diarrhea = true ∨ f.cannot_tolerate_oral = true ∨
      f.syncope_confusion = true ∨ f.very_low_bp = true) :
    (classify_alert vomit f vitals s).1 = Level.RED := by
  have h2 : (red_step (f.syncope_confusion || f.very_low_bp) Reason.severeSymptoms
      (red_step (vomit || f.persistent_diarrhea || f.cannot_tolerate_oral)
        Reason.noOralAbsorption (Level.GREEN, []))).1 = Level.RED := by
    rcases h with h | h | h | h | h <;> rw [h] <;> unfold red_step <;>
      split_ifs <;> simp_all
  unfold classify_alert
  rcases vitals with _ | v
  · exact h2
  · dsimp only
    rw [if_pos h2]
    exact h2

theorem red_flag_forces_red_witness :
    (true = true ∨ noFlags.persistent_diarrhea = true ∨ noFlags.cannot_tolerate_oral = true ∨
      noFlags.syncope_confusion = true ∨ noFlags.very_low_bp = true) ∧
    (classify_alert true noFlags (some v95) 72).1 = Level.RED :=
  ⟨Or.inl rfl, red_flag_forces_red true noFlags (some v95) 72 (Or.inl rfl)⟩

/-- C5: superposition — the PK prediction on the concatenation of two dose
lists is the sum of the predictions on each list, for every evaluation time
and all rate constants (positive ones in particular). -/
theorem pk_superposition (A B : List (ℝ × ℝ)) (t ka th Vd : ℝ) :
    pk_predict_conc (A ++ B) t ka th Vd =
      pk_predict_conc A t ka th Vd + pk_predict_conc B t ka th Vd := by
  simp [pk_predict_conc]

/-- C6: when every administration time is at or after the evaluation time
(all doses future or concurrent, so `dt <= 0` for each), `pk_predict_conc`
returns exactly 0. -/
theorem pk_future_doses_zero (doses : List (ℝ × ℝ)) (t ka th Vd : ℝ)
    (h : ∀ d ∈ doses, t ≤ d.1) :
    pk_predict_conc doses t ka th Vd = 0 := by
  unfold pk_predict_conc
  refine List.sum_eq_zero ?_
  intro x hx
  simp only [List.mem_map] at hx
  obtain ⟨d, hd, rfl⟩ := hx
  have hdt : t - d.1 ≤ 0 := by have := h d hd; linarith
  simp [pk_dose_term, hdt]

theorem pk_future_doses_zero_witness :
    (∀ d ∈ [((1 : ℝ), (10 : ℝ))], (0 : ℝ) ≤ d.1) ∧
    pk_predict_conc [((1 : ℝ), 10)] 0 1.8 1.7 35 = 0 :=
  ⟨by intro d hd; simp only [List.mem_singleton] at hd; subst hd; norm_num,
   pk_future_doses_zero _ 0 1.8 1.7 35
     (by intro d hd; simp only [List.mem_singleton] at hd; subst hd; norm_num)⟩

/-- C7: when `ka` coincides with `ke = log 2 / t_half` within the numerical
tolerance 1e-6, each dose's contribution is the `continue` branch (zero), so
`pk_predict_conc` returns 0 for every dose list — the division by `ka - ke`
is guarded behind the tolerance test and is never reached. -/
theorem pk_rate_collision_zero (doses : List (ℝ × ℝ)) (t ka th Vd : ℝ)
    (h : |ka - Real.log 2 / th| < 1 / 1000000) :
    pk_predict_conc doses t ka th Vd = 0 := by
  unfold pk_predict_conc
  refine List.sum_eq_zero ?_
  intro x hx
  simp only [List.mem_map] at hx
  obtain ⟨d, hd, rfl⟩ := hx
  unfold pk_dose_term
  split_ifs <;> simp_all

theorem pk_rate_collision_zero_witness :
    |Real.log 2 - Real.log 2 / 1| < 1 / 1000000 ∧
    pk_predict_conc [((0 : ℝ), 10)] 1 (Real.log 2) 1 35 = 0 :=
  ⟨by rw [div_one, sub_self, abs_zero]; norm_num,
   pk_rate_collision_zero _ 1 (Real.log 2) 1 35 (by rw [div_one, sub_self, abs_zero]; norm_num)⟩

/-- A `red_step` preserves the invariant "level is GREEN iff no reasons". -/
theorem red_step_green_iff {R : Type} (c : Bool) (r : R) (s : Level × List R)
    (h : s.1 = Level.GREEN ↔ s.2 = []) :
    (red_step c r s).1 = Level.GREEN ↔ (red_step c r s).2 = [] := by
  cases c <;> simp [red_step, h]

/-- An `amber_step` preserves the invariant "level is GREEN iff no reasons". -/
theorem amber_step_green_iff {R : Type} (c : Bool) (r : R) (s : Level × List R)
    (h : s.1 = Level.GREEN ↔ s.2 = []) :
    (amber_step c r s).1 = Level.GREEN ↔ (amber_step c r s).2 = [] := by
  cases c <;> simp [amber_step, h]

/-- An `amber_opt_step` preserves the invariant "level is GREEN iff no
reasons". -/
theorem amber_opt_step_green_iff {R : Type} (field : Option ℚ) (tr : ℚ → Bool) (mk : ℚ → R)
    (s : Level × List R) (h : s.1 = Level.GREEN ↔ s.2 = []) :
    (amber_opt_step field tr mk s).1 = Level.GREEN ↔ (amber_opt_step field tr mk s).2 = [] := by
  rcases field with _ | x
  · exact h
  · exact amber_step_green_iff _ _ _ h

/-- C9: invariant of `classify_alert` for every input — the returned level is
GREEN if and only if the returned reasons list is empty; every RED or AMBER
result carries at least one reason. -/
theorem green_iff_no_reasons (vomit : Bool) (f : SevereFlags) (vitals : Option Vitals) (s : ℚ) :
    (classify_alert vomit f vitals s).1 = Level.GREEN ↔
      (classify_alert vomit f vitals s).2 = [] := by
  have h0 : ((Level.GREEN, []) : Level × List Reason).1 = Level.GREEN ↔
      ((Level.GREEN, []) : Level × List Reason).2 = [] := by simp
  have h2 := red_step_green_iff (f.syncope_confusion || f.very_low_bp) Reason.severeSymptoms _
    (red_step_green_iff (vomit || f.persistent_diarrhea || f.cannot_tolerate_oral)
      Reason.noOralAbsorption _ h0)
  unfold classify_alert
  rcases vitals with _ | v
  · exact h2
  · dsimp only
    split_ifs with hred
    · exact h2
    · exact amber_opt_step_green_iff _ _ _ _ (amber_opt_step_green_iff _ _ _ _
        (amber_opt_step_green_iff _ _ _ _ (amber_step_green_iff _ _ _ h2)))

/-- C8: for every input whose biochemical/sensor value is strictly below the
current circadian bucket's target-range low and whose RED stage does not fire
(no RED-triggering flag set, so the level is not already RED), the
biochemical alert classifier returns a level of severity at least AMBER and
appends a below-target reason.  (`classify_alert_biochem` is modelled from
the spec, section 4.4; only the wearable variant's classifier is in `src/`.) -/
theorem below_target_amber (vomit : Bool) (f : SevereFlags) (temp hr : Option ℚ) (x : ℚ)
    (ranges : Bucket → TargetRange) (t : TimeHM)
    (hv : vomit = false) (h1 : f.persistent_diarrhea = false)
    (h2 : f.cannot_tolerate_oral = false) (h3 : f.syncope_confusion = false)
    (h4 : f.very_low_bp = false)
    (hx : x < (ranges (time_of_day_bucket t)).low) :
    Level.rank Level.AMBER ≤
      Level.rank (classify_alert_biochem vomit f temp hr (some x)
        (ranges (time_of_day_bucket t))).1 ∧
    ReasonB.belowTarget x (ranges (time_of_day_bucket t)).low ∈
      (classify_alert_biochem vomit f temp hr (some x) (ranges (time_of_day_bucket t))).2 := by
  unfold classify_alert_biochem
  rw [hv, h1, h2, h3, h4]
  dsimp only
  rw [if_neg (by simp [red_step])]
  simp only [red_step, Bool.or_false, Bool.false_or, if_neg Bool.false_ne_true,
    List.nil_append]
  unfold amber_opt_step
  dsimp only
  rw [show decide (x < (ranges (time_of_day_bucket t)).low) = true by simpa using hx]
  unfold amber_step
  rw [if_pos rfl]
  constructor
  · simp [Level.rank]
  · simp

theorem below_target_amber_witness :
    (false = false ∧ noFlags.persistent_diarrhea = false ∧
      noFlags.cannot_tolerate_oral = false ∧ noFlags.syncope_confusion = false ∧
      noFlags.very_low_bp = false ∧
      (3 : ℚ) < ((fun _ : Bucket => TargetRange.mk 12 25) (time_of_day_bucket ⟨9, 0⟩)).low) ∧
    Level.rank Level.AMBER ≤
      Level.rank (classify_alert_biochem false noFlags none none (some 3)
        ((fun _ : Bucket => TargetRange.mk 12 25) (time_of_day_bucket ⟨9, 0⟩))).1 ∧
    ReasonB.belowTarget 3 ((fun _ : Bucket => TargetRange.mk 12 25)
        (time_of_day_bucket ⟨9, 0⟩)).low ∈
      (classify_alert_biochem false noFlags none none (some 3)
        ((fun _ : Bucket => TargetRange.mk 12 25) (time_of_day_bucket ⟨9, 0⟩))).2 :=
  ⟨⟨rfl, rfl, rfl, rfl, rfl, by norm_num⟩,
   below_target_amber false noFlags none none 3 (fun _ => TargetRange.mk 12 25) ⟨9, 0⟩
     rfl rfl rfl rfl rfl (by norm_num)⟩

/-- C4: for every vitals record and baselines with positive heart-rate
standard deviation, the score computed by `compute_stress_index` equals the
reference formula `stress_index_spec` written from the spec's words:
hr term `min(max(0,(hr-baseline_hr)/baseline_hr_sd)*15, 40)`, temperature
term `min(max(0, temp_dev - baseline_temp_dev)*40, 40)`, flat 10 points when
HRV < 20 ms, missing fields omit their term, total clamped to [0, 100]. -/
theorem stress_index_matches_spec (vitals : Option Vitals) (b sd btd : ℚ) (hsd : 0 < sd) :
    (compute_stress_index vitals b sd btd).1 = stress_index_spec vitals b sd btd := by
  rcases vitals with _ | ⟨hr, hrv, tdev, resp, spo2, sbp⟩
  · rfl
  · simp only [compute_stress_index, stress_index_spec]
    rcases hr with _ | hr <;> rcases tdev with _ | tdev <;> rcases hrv with _ | hrv <;>
      dsimp only <;> (try split_ifs) <;> simp_all

theorem stress_index_matches_spec_witness :
    (0 : ℚ) < 8 ∧
    (compute_stress_index (some v95) 70 8 0).1 = stress_index_spec (some v95) 70 8 0 :=
  ⟨by norm_num, stress_index_matches_spec (some v95) 70 8 0 (by norm_num)⟩

/-- Python's `round` never exceeds its argument by more than one half. -/
theorem pyround_le_add_half (x : ℚ) : (pyround x : ℚ) ≤ x + 1 / 2 := by
  unfold pyround
  split_ifs with h1 h2
  · have hf := Int.floor_le x
    linarith
  · push_cast
    linarith
  · have h := abs_sub_round x
    rw [abs_le] at h
    linarith [h.1, h.2]

/-- Core arithmetic of the oral dose split (`src/app.py:421-424`) for a
factor of at least 2 and a daily dose of at least 5 mg (the UI's minimum
daily dose, `src/app.py:220-221`): bolus plus follow-up restore
`(factor - 1) * daily`, the bolus is clamped to [5, 20] and is a multiple
of 2.5 mg. -/
theorem dose_split_core (factor daily : ℚ) (hf : 2 ≤ factor) (hd : 5 ≤ daily) :
    immediate_bolus factor daily + follow_up factor daily = (factor - 1) * daily ∧
    5 ≤ immediate_bolus factor daily ∧ immediate_bolus factor daily ≤ 20 ∧
    ∃ n : ℤ, immediate_bolus factor daily = (n : ℚ) * (5 / 2) := by
  have he : (5 : ℚ) ≤ extra_today factor daily := by
    unfold extra_today
    nlinarith
  have hb5 : 5 ≤ immediate_bolus factor daily := by
    unfold immediate_bolus
    exact le_min (by norm_num) (le_max_left _ _)
  have hb20 : immediate_bolus factor daily ≤ 20 := min_le_left _ _
  have hble : immediate_bolus factor daily ≤ extra_today factor daily := by
    unfold immediate_bolus
    refine le_trans (min_le_right _ _) (max_le he ?_)
    have hp := pyround_le_add_half (0.4 * extra_today factor daily / 2.5)
    have hp2 := mul_le_mul_of_nonneg_right hp (by norm_num : (0 : ℚ) ≤ 2.5)
    have harg : (0.4 * extra_today factor daily / 2.5 + 1 / 2) * 2.5 =
        0.4 * extra_today factor daily + 1.25 := by ring
    rw [harg] at hp2
    linarith
  refine ⟨?_, hb5, hb20, ?_⟩
  · unfold follow_up
    rw [max_eq_right (by linarith)]
    simp only [extra_today]
    ring
  · rcases le_total ((pyround (0.4 * extra_today factor daily / 2.5) : ℚ) * 2.5) 5 with h | h
    · refine ⟨2, ?_⟩
      unfold immediate_bolus
      rw [max_eq_left h]
      norm_num
    · rcases le_total ((pyround (0.4 * extra_today factor daily / 2.5) : ℚ) * 2.5) 20 with
        h' | h'
      · refine ⟨pyround (0.4 * extra_today factor daily / 2.5), ?_⟩
        unfold immediate_bolus
        rw [max_eq_right h, min_eq_right h']
        norm_num
      · refine ⟨8, ?_⟩
        unfold immediate_bolus
        rw [max_eq_right h, min_eq_left h']
        norm_num

/-- The sick-day factor only takes the values 0, 1, 2 and 3, so a factor
strictly above 1 is at least 2. -/
theorem sick_day_factor_two_le (vitals : Option Vitals) (s : ℚ) (red : Bool)
    (h : 1 < sick_day_factor_from_wearable vitals s red) :
    2 ≤ sick_day_factor_from_wearable vitals s red := by
  rcases vitals with _ | v <;>
    simp only [sick_day_factor_from_wearable] at h ⊢ <;>
    split_ifs at h ⊢ <;> linarith

/-- C1: whenever the program's stress factor is strictly greater than 1 (the
sick-day factor only takes values in {0, 1, 2, 3}) and for every daily
hydrocortisone dose the UI accepts (at least 5 mg, `src/app.py:220-221`),
the recommended immediate bolus plus the follow-up amount equals
`(stress_factor - 1) * daily_hc_mg`, and the immediate bolus lies in
[5, 20] mg and is a multiple of 2.5 mg. -/
theorem dose_split_invariant (vitals : Option Vitals) (s daily : ℚ) (red : Bool)
    (hf : 1 < sick_day_factor_from_wearable vitals s red) (hd : 5 ≤ daily) :
    immediate_bolus (sick_day_factor_from_wearable vitals s red) daily +
        follow_up (sick_day_factor_from_wearable vitals s red) daily =
      (sick_day_factor_from_wearable vitals s red - 1) * daily ∧
    5 ≤ immediate_bolus (sick_day_factor_from_wearable vitals s red) daily ∧
    immediate_bolus (sick_day_factor_from_wearable vitals s red) daily ≤ 20 ∧
    ∃ n : ℤ, immediate_bolus (sick_day_factor_from_wearable vitals s red) daily =
      (n : ℚ) * (5 / 2) :=
  dose_split_core _ daily (sick_day_factor_two_le vitals s red hf) hd

theorem dose_split_invariant_witness :
    (1 < sick_day_factor_from_wearable (some v95) 72 false ∧ (5 : ℚ) ≤ 20) ∧
    (immediate_bolus (sick_day_factor_from_wearable (some v95) 72 false) 20 +
        follow_up (sick_day_factor_from_wearable (some v95) 72 false) 20 =
      (sick_day_factor_from_wearable (some v95) 72 false - 1) * 20 ∧
    5 ≤ immediate_bolus (sick_day_factor_from_wearable (some v95) 72 false) 20 ∧
    immediate_bolus (sick_day_factor_from_wearable (some v95) 72 false) 20 ≤ 20 ∧
    ∃ n : ℤ, immediate_bolus (sick_day_factor_from_wearable (some v95) 72 false) 20 =
      (n : ℚ) * (5 / 2)) :=
  ⟨⟨by decide, by norm_num⟩,
   dose_split_invariant (some v95) 72 20 false (by decide) (by norm_num)⟩
